import Mathlib

/-!
Shallow embedding of the AURA-X trading decision and risk control engine.

Sources embedded:
 - services/risk_manager.py   (calculate_atr, RiskManager methods)
 - services/signal_verifier.py (verify_signal and its factor subscores)
 - services/atm_executor.py   (round_strike, expiry helpers, build_option_symbol)
 - services/trade_watcher.py  (check_active_trades, per-trade step)
 - services/aura_guard.py     (pause_system, try_auto_resume_if_allowed, guard cycle)

Python floats are modelled as rationals, Python ints as integers.  Python
round(x, nd) uses round-half-to-even; it is modelled by rhe and pyRound
below.  Python int(x) truncates toward zero; it is modelled by pyInt.
Dictionary get with a default is modelled by Option together with getD.
A Python KeyError raised by a missing candle field is modelled by the
Except monad with error value KeyError.  ASCII upper and lower case
conversion model the str.upper and str.lower calls, which only ever see
ASCII data in this code base.
-/

deriving instance DecidableEq for Except

namespace AuraX

/-- Round-half-to-even of a rational to an integer, as Python round(x). -/
def rhe (q : ℚ) : ℤ :=
  if q - ⌊q⌋ < 1/2 then ⌊q⌋
  else if 1/2 < q - ⌊q⌋ then ⌊q⌋ + 1
  else if ⌊q⌋ % 2 = 0 then ⌊q⌋ else ⌊q⌋ + 1

/-- Python round(x, nd) for nd decimal places. -/
def pyRound (q : ℚ) (nd : ℕ) : ℚ :=
  (rhe (q * (10 : ℚ) ^ nd) : ℚ) / (10 : ℚ) ^ nd

/-- Python int(x): truncation toward zero. -/
def pyInt (q : ℚ) : ℤ :=
  if 0 ≤ q then ⌊q⌋ else -⌊-q⌋

/-- ASCII upper-case of one character, as str.upper acts on ASCII. -/
def asciiUp (c : Char) : Char :=
  if 'a' ≤ c ∧ c ≤ 'z' then Char.ofNat (c.toNat - 32) else c

/-- ASCII lower-case of one character, as str.lower acts on ASCII. -/
def asciiDown (c : Char) : Char :=
  if 'A' ≤ c ∧ c ≤ 'Z' then Char.ofNat (c.toNat + 32) else c

/-- Python s.upper() on ASCII strings. -/
def pyUpper (s : String) : String := String.mk (s.data.map asciiUp)

/-- Python s.lower() on ASCII strings. -/
def pyLower (s : String) : String := String.mk (s.data.map asciiDown)

/-- Whether the first list is an initial segment of the second. -/
def listStarts : List Char → List Char → Bool
  | [], _ => true
  | _ :: _, [] => false
  | p :: ps, c :: cs => p = c && listStarts ps cs

/-- Substring search on character lists. -/
def listHasSub (pat : List Char) : List Char → Bool
  | [] => listStarts pat []
  | c :: cs => listStarts pat (c :: cs) || listHasSub pat cs

/-- Python membership test, pat in s. -/
def strContains (s pat : String) : Bool := listHasSub pat.data s.data

/-- Python s.endswith(suffix). -/
def strEndsWith (s suff : String) : Bool :=
  listStarts suff.data.reverse s.data.reverse

/-- Decimal digits of a natural number, structurally via fuel. -/
def natDigitsAux : ℕ → ℕ → List Char
  | 0, _ => []
  | fuel + 1, n =>
    if n = 0 then []
    else natDigitsAux fuel (n / 10) ++ [Char.ofNat (48 + n % 10)]

/-- Decimal string of a natural number, as Python str(n) for n as nat. -/
def natToStr (n : ℕ) : String :=
  if n = 0 then "0" else String.mk (natDigitsAux (n + 1) n)

/-- Decimal string of an integer, as Python str(n). -/
def intToStr (n : ℤ) : String :=
  if n < 0 then "-" ++ natToStr n.natAbs else natToStr n.natAbs

/-- Zero-padded two-digit decimal string, as strftime with a 2-wide field. -/
def twoDigit (n : ℕ) : String :=
  if n < 10 then "0" ++ natToStr n else natToStr n

/- ----------------------------------------------------------------
services/risk_manager.py
---------------------------------------------------------------- -/

/-- One candle dictionary; a missing key is None. -/
structure Candle where
  high : Option ℚ
  low : Option ℚ
  close : Option ℚ
deriving DecidableEq, Repr

/-- Dictionary subscription c[k]: a missing key raises KeyError. -/
def pyKey : Option ℚ → Except String ℚ
  | some v => Except.ok v
  | none => Except.error "KeyError"

/-- Maximum of a list of rationals, as Python max on a nonempty list. -/
def maxList : List ℚ → ℚ
  | [] => 0
  | h :: t => t.foldl max h

/-- Minimum of a list of rationals, as Python min on a nonempty list. -/
def minList : List ℚ → ℚ
  | [] => 0
  | h :: t => t.foldl min h

/-- True ranges of consecutive candles: loop body of calculate_atr with the
previous candle passed explicitly. -/
def trueRanges : Candle → List Candle → Except String (List ℚ)
  | _, [] => Except.ok []
  | prev, c :: rest => do
    let high ← pyKey c.high
    let low ← pyKey c.low
    let prev_close ← pyKey prev.close
    let tr := max (high - low) (max |high - prev_close| |low - prev_close|)
    let trs ← trueRanges c rest
    pure (tr :: trs)

/-- The last n elements of a list, as a Python negative-index slice. -/
def lastN (n : ℕ) (l : List ℚ) : List ℚ := l.drop (l.length - n)

/-- Sum of a list of rationals. -/
def sumList (l : List ℚ) : ℚ := l.foldl (· + ·) 0

/-- calculate_atr from risk_manager.py.  With fewer than period + 1 candles
it falls back to (max high - min low) / 2, or 1.0 with no candles; else it
averages the last period true ranges and replaces a non-positive average
by 1.0.  A candle missing an accessed field raises KeyError. -/
def calculate_atr (candles : List Candle) (period : ℕ) : Except String ℚ :=
  if candles.length < period + 1 then do
    let highs ← candles.mapM (fun c => pyKey c.high)
    let lows ← candles.mapM (fun c => pyKey c.low)
    if highs ≠ [] ∧ lows ≠ [] then
      pure ((maxList highs - minList lows) / 2)
    else
      pure 1
  else
    match candles with
    | [] => Except.error "unreachable"
    | c0 :: rest => do
      let trs ← trueRanges c0 rest
      let atr := sumList (lastN period trs) / (period : ℚ)
      pure (if atr > 0 then atr else 1)

/-- RiskManager.max_risk_pct default. -/
def max_risk_pct : ℚ := 2/100

/-- RiskManager.daily_loss_limit_pct default. -/
def daily_loss_limit_pct : ℚ := 5/100

/-- RiskManager.atr_multiplier_sl default. -/
def atr_multiplier_sl : ℚ := 3/2

/-- RiskManager.target_multiplier default. -/
def target_multiplier : ℚ := 3

/-- RiskManager.trailing_step_pct default. -/
def trailing_step_pct : ℚ := 1/2

/-- RiskManager.calculate_quantity. -/
def calculate_quantity (capital entry_price stoploss_price : ℚ) : ℤ :=
  let risk_amount := capital * max_risk_pct
  let sl_distance := |entry_price - stoploss_price|
  if sl_distance ≤ 0 then 0
  else
    let qty := ⌊risk_amount / sl_distance⌋
    if qty < 1 then 0 else qty

/-- Result record of compute_sl_target_from_atr. -/
structure RiskPlan where
  atr : ℚ
  stoploss : ℚ
  target : ℚ
  sl_distance : ℚ
  target_distance : ℚ
deriving DecidableEq, Repr

/-- RiskManager.compute_sl_target_from_atr; propagates a KeyError raised by
calculate_atr. -/
def compute_sl_target_from_atr (candles : List Candle) (entry_price : ℚ)
    (direction : String) : Except String RiskPlan := do
  let atr ← calculate_atr candles 14
  let sl_distance := atr_multiplier_sl * atr
  let target_distance := target_multiplier * atr
  let stoploss := if direction = "BUY" then entry_price - sl_distance
                  else entry_price + sl_distance
  let target := if direction = "BUY" then entry_price + target_distance
                else entry_price - target_distance
  pure { atr := pyRound atr 4
         stoploss := pyRound stoploss 2
         target := pyRound target 2
         sl_distance := pyRound sl_distance 4
         target_distance := pyRound target_distance 4 }

/-- One stored trade as read by check_daily_loss_limit. -/
structure StoredTrade where
  timestamp : ℤ
  pnl : ℚ
deriving DecidableEq, Repr

/-- RiskManager.check_daily_loss_limit over the trades stored for the user,
with the wall clock passed explicitly. -/
def check_daily_loss_limit (trades : List StoredTrade) (now : ℤ)
    (capital : ℚ) : Bool × ℚ × ℚ :=
  let today_ts := now - 24 * 3600
  let pnl := sumList ((trades.filter (fun t => today_ts ≤ t.timestamp)).map
    (fun t => t.pnl))
  let loss_limit := -|capital * daily_loss_limit_pct|
  if pnl ≤ loss_limit then (false, pnl, loss_limit)
  else (true, pnl, loss_limit)

/-- Percent move from entry in the favorable direction, as computed at the
top of compute_trailing_sl; a zero entry price yields 0.0. -/
def trailing_move_pct (entry_price current_price : ℚ)
    (direction : String) : ℚ :=
  if direction = "SELL" then
    if entry_price ≠ 0 then (entry_price - current_price) / entry_price * 100
    else 0
  else
    if entry_price ≠ 0 then (current_price - entry_price) / entry_price * 100
    else 0

/-- RiskManager.compute_trailing_sl. -/
def compute_trailing_sl (entry_price current_price : ℚ) (direction : String)
    (current_sl : ℚ) : ℚ :=
  let move_pct := trailing_move_pct entry_price current_price direction
  let steps_passed : ℤ :=
    if move_pct > 0 then ⌊move_pct / trailing_step_pct⌋ else 0
  if steps_passed ≤ 0 then current_sl
  else if direction = "BUY" then
    if 1 ≤ steps_passed then max current_sl (pyRound entry_price 2)
    else current_sl
  else
    if 1 ≤ steps_passed then min current_sl (pyRound entry_price 2)
    else current_sl

/- ----------------------------------------------------------------
services/signal_verifier.py
---------------------------------------------------------------- -/

/-- Incoming signal dictionary fields used by verify_signal.  A missing
ai_score key is none. -/
structure Signal where
  symbol : String
  side : String
  type : String
  confidence : ℚ
  ai_score : Option ℚ
deriving DecidableEq, Repr

/-- Index part of a market snapshot; absent ema readings are none and an
absent ha_last3 list defaults to the empty list as in idx.get. -/
structure IndexSnap where
  ema20 : Option ℚ
  ema50 : Option ℚ
  ha_last3 : List String
deriving DecidableEq, Repr

/-- Option-greeks part of a market snapshot; each absent reading takes the
numeric default used at its opt.get call site. -/
structure OptionSnap where
  delta : Option ℚ
  gamma : Option ℚ
  theta : Option ℚ
  iv_delta_30m_pct : Option ℚ
deriving DecidableEq, Repr

/-- Open-interest part of a market snapshot. -/
structure OiSnap where
  atm_plus_minus_4_net_oi_delta_15m : Option ℚ
  oi_1h_avg : Option ℚ
deriving DecidableEq, Repr

/-- Volume part of a market snapshot. -/
structure VolumeSnap where
  candle_vol : Option ℚ
  avg_5 : Option ℚ
deriving DecidableEq, Repr

/-- Tick part of a market snapshot. -/
structure TickSnap where
  last_3_delta_pct : Option ℚ
deriving DecidableEq, Repr

/-- A market snapshot; every reading is optional and absence degrades the
subscores through the recorded defaults. -/
structure Snapshot where
  index : IndexSnap
  option : OptionSnap
  oi : OiSnap
  volume : VolumeSnap
  ltp_ticks : TickSnap
deriving DecidableEq, Repr

/-- The snapshot with every reading absent, as an empty dictionary. -/
def emptySnapshot : Snapshot :=
  { index := { ema20 := none, ema50 := none, ha_last3 := [] }
    option := { delta := none, gamma := none, theta := none
                iv_delta_30m_pct := none }
    oi := { atm_plus_minus_4_net_oi_delta_15m := none, oi_1h_avg := none }
    volume := { candle_vol := none, avg_5 := none }
    ltp_ticks := { last_3_delta_pct := none } }

/-- Result record of verify_signal; breakdown keeps insertion order. -/
structure VerifyResult where
  action : String
  score : ℚ
  breakdown : List (String × ℚ)
  reasons : List String
deriving DecidableEq, Repr

/-- CFG time_window_start 09:45 in minutes of the day. -/
def SV_TIME_START_MIN : ℕ := 9 * 60 + 45

/-- CFG time_window_end 15:00 in minutes of the day. -/
def SV_TIME_END_MIN : ℕ := 15 * 60

/-- CFG score_threshold_auto default 0.75. -/
def score_threshold_auto : ℚ := 75/100

/-- CFG score_threshold_manual default 0.65. -/
def score_threshold_manual : ℚ := 65/100

/-- CFG volume_multiplier default 1.5. -/
def volume_multiplier : ℚ := 3/2

/-- CFG min_delta default 0.30. -/
def min_delta : ℚ := 3/10

/-- CFG oi_delta_abs_min default 2000. -/
def oi_delta_abs_min : ℤ := 2000

/-- CFG iv_delta_min_pct default -5. -/
def iv_delta_min_pct : ℚ := -5

/-- CFG iv_delta_max_pct default 20. -/
def iv_delta_max_pct : ℚ := 20

/-- The six factor weights of the verifier, in dictionary order. -/
def WEIGHTS : List (String × ℚ) :=
  [("market_direction", 25/100),
   ("oi_build", 20/100),
   ("volume_momentum", 15/100),
   ("greeks", 15/100),
   ("iv_sanity", 10/100),
   ("confidence", 15/100)]

/-- Weight of one factor, as the WEIGHTS dictionary lookup. -/
def weightOf (k : String) : ℚ := ((WEIGHTS.lookup k).getD 0)

/-- now_in_time_window over the minute of the day. -/
def now_in_time_window (curMin : ℕ) : Bool :=
  SV_TIME_START_MIN ≤ curMin ∧ curMin ≤ SV_TIME_END_MIN

/-- Market-direction subscore of verify_signal. -/
def mdScore (sig : Signal) (snap : Snapshot) : ℚ :=
  match snap.index.ema20, snap.index.ema50 with
  | some ema20, some ema50 =>
    let trend := if ema20 > ema50 then "BULL" else "BEAR"
    let sig_side :=
      if strContains sig.symbol "CE" ∨ pyUpper sig.type = "CE" then "CALL"
      else "PUT"
    if (trend = "BULL" ∧ sig_side = "CALL") ∨
       (trend = "BEAR" ∧ sig_side = "PUT") then
      let ha3 := snap.index.ha_last3
      let want := if trend = "BULL" then "green" else "red"
      if 3 ≤ ha3.length ∧
         ((ha3.drop (ha3.length - 3)).all (fun c => pyLower c = want)) then 1
      else 6/10
    else 0
  | _, _ => 1/2

/-- Open-interest subscore of verify_signal. -/
def oiScore (sig : Signal) (snap : Snapshot) : ℚ :=
  let oi_delta := snap.oi.atm_plus_minus_4_net_oi_delta_15m.getD 0
  let oi_avg := snap.oi.oi_1h_avg.getD 0
  let thresh : ℚ :=
    max (oi_delta_abs_min : ℚ)
      ((pyInt ((3/100) * (if oi_avg = 0 then 1 else oi_avg)) : ℤ) : ℚ)
  if strEndsWith (pyUpper sig.type) "CE" ∧ thresh ≤ oi_delta then 1
  else if thresh * (6/10) ≤ |oi_delta| then 6/10
  else 0

/-- Volume and momentum subscore of verify_signal. -/
def volScore (snap : Snapshot) : ℚ :=
  let cv := snap.volume.candle_vol.getD 0
  let avg5 := snap.volume.avg_5.getD 1
  let tick_delta_pct := snap.ltp_ticks.last_3_delta_pct.getD 0
  let vol_ok := volume_multiplier * (if avg5 = 0 then 1 else avg5) ≤ cv
  let tick_ok := (3 : ℚ) ≤ |tick_delta_pct|
  if vol_ok ∧ tick_ok then 1
  else if vol_ok ∨ tick_ok then 6/10
  else 0

/-- Greeks subscore of verify_signal. -/
def greeksScore (snap : Snapshot) : ℚ :=
  let delta := |snap.option.delta.getD 0|
  let gamma := snap.option.gamma.getD 0
  let theta := snap.option.theta.getD 0
  let d_ok := min_delta ≤ delta
  let g_ok := (3/100 : ℚ) ≤ gamma
  let t_ok := (-12 : ℚ) < theta
  if d_ok ∧ g_ok ∧ t_ok then 1
  else if (d_ok ∧ g_ok) ∨ (d_ok ∧ t_ok) then 6/10
  else 0

/-- Implied-volatility subscore of verify_signal, with the reason it
appends when the band check fails. -/
def ivScorePair (snap : Snapshot) : ℚ × List String :=
  let ivd := snap.option.iv_delta_30m_pct.getD 0
  if iv_delta_min_pct ≤ ivd ∧ ivd ≤ iv_delta_max_pct then (1, [])
  else (0, ["iv_out_of_range"])

/-- Confidence subscore of verify_signal: 0.6 times the capped television
confidence plus 0.4 times the ai score, the latter kept only when it
already lies in the unit interval. -/
def confScore (sig : Signal) : ℚ :=
  let tv_conf := sig.confidence
  let ai_score := sig.ai_score.getD 0
  let tv_norm := min 100 tv_conf / 100
  let ai_norm := if 0 ≤ ai_score ∧ ai_score ≤ 1 then ai_score else 0
  (6/10) * tv_norm + (4/10) * ai_norm

/-- verify_signal from signal_verifier.py, with the minute of the day
passed explicitly in place of time.localtime. -/
def verify_signal (sig : Signal) (snap : Snapshot) (curMin : ℕ) :
    VerifyResult :=
  if ¬ now_in_time_window curMin then
    { action := "SKIP", score := 0, breakdown := []
      reasons := ["outside_time_window"] }
  else if pyUpper sig.side ≠ "BUY" then
    { action := "SKIP", score := 0, breakdown := []
      reasons := ["not_buy_signal"] }
  else
    let md := mdScore sig snap
    let oi := oiScore sig snap
    let vol := volScore snap
    let gk := greeksScore snap
    let ivp := ivScorePair snap
    let conf := confScore sig
    let total_score :=
      md * weightOf "market_direction" + oi * weightOf "oi_build" +
      vol * weightOf "volume_momentum" + gk * weightOf "greeks" +
      ivp.1 * weightOf "iv_sanity" + conf * weightOf "confidence"
    let score := pyRound (max 0 (min 1 total_score)) 4
    let action :=
      if score_threshold_auto ≤ score then "EXECUTE"
      else if score_threshold_manual ≤ score then "MANUAL"
      else "SKIP"
    let reasons :=
      ivp.2 ++
      (if md < 1/2 then ["market_direction_weak"] else []) ++
      (if oi < 1/2 then ["oi_weak"] else []) ++
      (if vol < 1/2 then ["volume_weak"] else []) ++
      (if gk < 1/2 then ["greeks_weak"] else []) ++
      (if conf < 1/2 then ["confidence_weak"] else [])
    { action := action, score := score
      breakdown := [("market_direction", md), ("oi_build", oi),
                    ("volume_momentum", vol), ("greeks", gk),
                    ("iv_sanity", ivp.1), ("confidence", conf)]
      reasons := reasons }

/-- Modelled from the spec: the confidence subscore formula as the spec
states it, with the ai score clamped into the unit interval.  Written for
comparison against confScore, which is the embedding of the source. -/
def specConfidenceFormula (confidence ai_score : ℚ) : ℚ :=
  (6/10) * (min 100 confidence / 100) + (4/10) * (max 0 (min 1 ai_score))

/- ----------------------------------------------------------------
services/atm_executor.py: strike rounding, expiry and symbol helpers
---------------------------------------------------------------- -/

/-- A calendar date: year, month 1..12, day 1..31. -/
structure PyDate where
  year : ℕ
  month : ℕ
  day : ℕ
deriving DecidableEq, Repr

/-- Gregorian leap-year rule. -/
def isLeap (y : ℕ) : Bool := (y % 4 = 0 ∧ y % 100 ≠ 0) ∨ y % 400 = 0

/-- Number of days in a month. -/
def daysInMonth (y m : ℕ) : ℕ :=
  if m = 2 then (if isLeap y then 29 else 28)
  else if m = 4 ∨ m = 6 ∨ m = 9 ∨ m = 11 then 30
  else 31

/-- The day after a date. -/
def nextDay (d : PyDate) : PyDate :=
  if d.day < daysInMonth d.year d.month then ⟨d.year, d.month, d.day + 1⟩
  else if d.month < 12 then ⟨d.year, d.month + 1, 1⟩
  else ⟨d.year + 1, 1, 1⟩

/-- Adding n days to a date, as datetime.timedelta(days=n). -/
def addDays (d : PyDate) : ℕ → PyDate
  | 0 => d
  | n + 1 => nextDay (addDays d n)

/-- Weekday of a date with Monday = 0, as datetime.date.weekday, computed
by the Zeller congruence. -/
def pyWeekday (d : PyDate) : ℕ :=
  let m := if d.month ≤ 2 then d.month + 12 else d.month
  let y := if d.month ≤ 2 then d.year - 1 else d.year
  let K := y % 100
  let J := y / 100
  let h := (d.day + 13 * (m + 1) / 5 + K + K / 4 + J / 4 + 5 * J) % 7
  (h + 5) % 7

/-- get_weekday_for_index: Wednesday for a BANK index family, Tuesday for a
FIN index family, Thursday otherwise. -/
def get_weekday_for_index (index_name : String) : ℕ :=
  let name := pyUpper index_name
  if strContains name "BANK" then 2
  else if strContains name "FIN" then 1
  else 3

/-- get_next_weekly_expiry with the reference date passed explicitly. -/
def get_next_weekly_expiry (index_name : String) (from_date : PyDate) :
    PyDate :=
  let target_wd := get_weekday_for_index index_name
  let days_ahead :=
    (((target_wd : ℤ) - (pyWeekday from_date : ℤ)) % 7).toNat
  addDays from_date days_ahead

/-- Upper-case month abbreviation, as strftime b upper-cased. -/
def monthAbbrevUpper (m : ℕ) : String :=
  match m with
  | 1 => "JAN" | 2 => "FEB" | 3 => "MAR" | 4 => "APR"
  | 5 => "MAY" | 6 => "JUN" | 7 => "JUL" | 8 => "AUG"
  | 9 => "SEP" | 10 => "OCT" | 11 => "NOV" | 12 => "DEC"
  | _ => ""

/-- build_option_symbol: BASE, two-digit year, month abbreviation,
two-digit day, strike, option type, concatenated. -/
def build_option_symbol (index_name : String) (expiry_date : PyDate)
    (strike : ℤ) (option_type : String) : String :=
  let year_two := twoDigit (expiry_date.year % 100)
  let month_str := monthAbbrevUpper expiry_date.month
  let day_str := twoDigit expiry_date.day
  let base := pyUpper index_name
  base ++ year_two ++ month_str ++ day_str ++ intToStr strike ++ option_type

/-- round_strike: the index price divided by the step, rounded half to
even, times the step; a non-positive step just rounds the price. -/
def round_strike (index_price : ℚ) (strike_step : ℤ) : ℤ :=
  if strike_step ≤ 0 then rhe index_price
  else rhe (index_price / (strike_step : ℚ)) * strike_step

/-- find_atm_option restricted to the weekly branch, with the reference
date passed explicitly in place of datetime.date.today. -/
def find_atm_option (index_price : ℚ) (index_name : String)
    (option_type : String) (offset : ℤ) (today : PyDate) : String :=
  let name := pyUpper index_name
  let strike_step : ℤ := if strContains name "BANK" then 100 else 50
  let strike := round_strike index_price strike_step + offset * strike_step
  let expiry := get_next_weekly_expiry name today
  build_option_symbol name expiry strike (pyUpper option_type)

/- ----------------------------------------------------------------
services/trade_watcher.py
---------------------------------------------------------------- -/

/-- One stored trade as read and written by check_active_trades. -/
structure WTrade where
  status : String
  symbol : String
  type : String
  entry_price : ℚ
  stoploss : ℚ
  target : ℚ
  quantity : ℤ
  trade_id : Option String
  exit_price : Option ℚ
  exit_time : Option ℤ
  pnl : Option ℚ
deriving DecidableEq, Repr

/-- get_trade_pnl from trade_watcher.py. -/
def get_trade_pnl (t : WTrade) (current_price : ℚ) : ℚ :=
  if t.type = "BUY" then
    pyRound ((current_price - t.entry_price) * (t.quantity : ℚ)) 2
  else
    pyRound ((t.entry_price - current_price) * (t.quantity : ℚ)) 2

/-- The body of the check_active_trades loop for one trade: skip a trade
whose status is not SUCCESS or TRAILING, skip on a missing or falsy live
price, otherwise apply the trailing-stop update and then the exit update.
The exit comparison uses the stoploss read before the trailing update,
exactly as the source reads it into a local variable first. -/
def watch_trade (t : WTrade) (ltp : Option ℚ) (now : ℤ) : WTrade :=
  if t.status ≠ "SUCCESS" ∧ t.status ≠ "TRAILING" then t
  else
    match ltp with
    | none => t
    | some current_price =>
      if current_price = 0 then t
      else
        let pnl := get_trade_pnl t current_price
        let hit_type : Option String :=
          if t.type = "BUY" then
            if current_price ≤ t.stoploss then some "STOPLOSS"
            else if t.target ≤ current_price then some "TARGET"
            else none
          else if t.type = "SELL" then
            if t.stoploss ≤ current_price then some "STOPLOSS"
            else if current_price ≤ t.target then some "TARGET"
            else none
          else none
        let t1 :=
          if t.type = "BUY" ∧
             t.entry_price + t.entry_price * (2/1000) < current_price then
            let new_sl := max t.stoploss (current_price - (3/1000) * current_price)
            if t.stoploss < new_sl then
              { t with stoploss := new_sl, status := "TRAILING" }
            else t
          else if t.type = "SELL" ∧
             current_price < t.entry_price - t.entry_price * (2/1000) then
            let new_sl := min t.stoploss (current_price + (3/1000) * current_price)
            if new_sl < t.stoploss then
              { t with stoploss := new_sl, status := "TRAILING" }
            else t
          else t
        match hit_type with
        | some h =>
          { t1 with status := h, exit_price := some current_price
                    exit_time := some now, pnl := some pnl }
        | none => t1

/-- check_active_trades over the flattened list of stored trades, with the
live price feed and the wall clock passed explicitly. -/
def check_active_trades (trades : List WTrade) (feed : String → Option ℚ)
    (now : ℤ) : List WTrade :=
  trades.map (fun t => watch_trade t (feed t.symbol) now)

/- ----------------------------------------------------------------
services/aura_guard.py
---------------------------------------------------------------- -/

/-- Guard configuration after read_guard_config_from_db merged the store
overrides with the environment defaults. -/
structure GuardCfg where
  soft_pct : ℚ
  hard_pct : ℚ
  min_trades : ℤ
  auto_resume_sec : ℤ
  default_capital : ℚ
deriving DecidableEq, Repr

/-- The system paused_info record written by record_pause_info. -/
structure PausedInfo where
  reason : String
  at_time : ℤ
  uid : Option String
  pnl : Option ℚ
  limit : Option ℚ
deriving DecidableEq, Repr

/-- The slice of the persistent store the guard reads and writes: the
system mode, the pause record and the force_resume flag. -/
structure SystemState where
  mode : Option String
  paused_info : Option PausedInfo
  force_resume : Bool
deriving DecidableEq, Repr

/-- get_system_mode: a missing or falsy empty mode reads as live. -/
def get_system_mode (st : SystemState) : String :=
  if st.mode.getD "live" = "" then "live" else st.mode.getD "live"

/-- pause_system: returns False and changes nothing when already paused;
otherwise writes the paused mode and the pause record and emits one
critical alert.  The alert titles stand for the notify_system_alert
calls. -/
def pause_system (st : SystemState) (reason : String) (uid : Option String)
    (pnl limit : Option ℚ) (now : ℤ) : Bool × SystemState × List String :=
  if get_system_mode st = "paused" then (false, st, [])
  else
    (true,
     { st with mode := some "paused"
               paused_info := some ⟨reason, now, uid, pnl, limit⟩ },
     ["AURA-GUARD: System Paused"])

/-- try_auto_resume_if_allowed: with a non-positive auto_resume_sec, or a
missing pause record, or a falsy pause timestamp, nothing is checked and
the call returns False; otherwise the system resumes when the cooldown has
elapsed, or else when the force_resume flag reads exactly True. -/
def try_auto_resume_if_allowed (cfg : GuardCfg) (st : SystemState)
    (now : ℤ) : Bool × SystemState × List String :=
  if cfg.auto_resume_sec ≤ 0 then (false, st, [])
  else
    match st.paused_info with
    | none => (false, st, [])
    | some paused =>
      if paused.at_time = 0 then (false, st, [])
      else if cfg.auto_resume_sec ≤ now - paused.at_time then
        (true, { st with mode := some "live", paused_info := none },
         ["AURA-GUARD: Auto-resume"])
      else if st.force_resume then
        (true, { st with mode := some "live", paused_info := none
                         force_resume := false },
         ["AURA-GUARD: Admin resume"])
      else (false, st, [])

/-- One trade as read by calculate_user_daily_pnl; a missing exit_time
reads as the falsy 0. -/
structure GuardTrade where
  status : String
  exit_time : ℤ
  entry_price : ℚ
  exit_price : Option ℚ
  price : Option ℚ
  quantity : ℤ
  type : String
deriving DecidableEq, Repr

/-- One user record as read by the guard loop. -/
structure GuardUser where
  capital : Option ℚ
  trades : List GuardTrade
deriving DecidableEq, Repr

/-- calculate_user_daily_pnl: sums the P&L of trades whose truthy
exit_time falls on or after the epoch start of the current day, and counts
them. -/
def calculate_user_daily_pnl (trades : List GuardTrade) (now : ℤ) :
    ℚ × ℤ :=
  let today_start := now.fdiv 86400 * 86400
  trades.foldl
    (fun acc t =>
      if t.exit_time ≠ 0 ∧ today_start ≤ t.exit_time then
        let entry := t.entry_price
        let exitp := t.exit_price.getD (t.price.getD 0)
        let pnl :=
          if pyUpper t.type = "BUY" then (exitp - entry) * (t.quantity : ℚ)
          else (entry - exitp) * (t.quantity : ℚ)
        (acc.1 + pnl, acc.2 + 1)
      else acc)
    (0, 0)

/-- check_user_against_limits: allowed flag, P&L, soft and hard limits,
trade count and breach reason for one user. -/
def check_user_against_limits (user : GuardUser) (cfg : GuardCfg)
    (now : ℤ) : Bool × ℚ × ℚ × ℚ × ℤ × Option String :=
  let capital := user.capital.getD cfg.default_capital
  let pc := calculate_user_daily_pnl user.trades now
  let soft_limit_value := -|capital * cfg.soft_pct|
  let hard_limit_value := -|capital * cfg.hard_pct|
  if cfg.min_trades ≤ pc.2 ∧ pc.1 ≤ hard_limit_value then
    (false, pc.1, soft_limit_value, hard_limit_value, pc.2, some "HARD_STOP")
  else if cfg.min_trades ≤ pc.2 ∧ pc.1 ≤ soft_limit_value then
    (false, pc.1, soft_limit_value, hard_limit_value, pc.2, some "SOFT_STOP")
  else
    (true, pc.1, soft_limit_value, hard_limit_value, pc.2, none)

/-- The user loop of run_guard_loop: evaluate users in order, pause the
system at the first breach and stop there.  Returns the new state, the
uids evaluated this cycle and the alerts emitted. -/
def guardEvalUsers (cfg : GuardCfg) (now : ℤ) :
    SystemState → List (String × GuardUser) →
    SystemState × List String × List String
  | st, [] => (st, [], [])
  | st, (uid, user) :: rest =>
    let r := check_user_against_limits user cfg now
    if r.1 then
      let rec_result := guardEvalUsers cfg now st rest
      (rec_result.1, uid :: rec_result.2.1, rec_result.2.2)
    else
      let pause_reason := (r.2.2.2.2.2).getD "LOSS_LIMIT"
      let limit := if pause_reason = "HARD_STOP" then r.2.2.2.1 else r.2.2.1
      let p := pause_system st pause_reason (some uid) (some r.2.1)
        (some limit) now
      (p.2.1, [uid], p.2.2)

/-- One iteration of run_guard_loop after the configuration read: when the
mode is paused only the auto-resume attempt runs and no account is
evaluated; otherwise every account is evaluated until the first breach
pauses the system. -/
def guard_cycle (cfg : GuardCfg) (st : SystemState)
    (users : List (String × GuardUser)) (now : ℤ) :
    SystemState × List String × List String :=
  if get_system_mode st = "paused" then
    let r := try_auto_resume_if_allowed cfg st now
    (r.2.1, [], r.2.2)
  else guardEvalUsers cfg now st users

/- ----------------------------------------------------------------
Shared lemmas about the Python rounding helpers
---------------------------------------------------------------- -/

/-- Round-half-to-even lands on the floor or on the floor plus one. -/
theorem rhe_eq_floor_or_succ (q : ℚ) : rhe q = ⌊q⌋ ∨ rhe q = ⌊q⌋ + 1 := by
  unfold rhe
  split_ifs <;> simp

/-- Round-half-to-even picks an integer at minimal distance from q. -/
theorem rhe_nearest (q : ℚ) (m : ℤ) :
    |(rhe q : ℚ) - q| ≤ |(m : ℚ) - q| := by
  have hf : ((⌊q⌋ : ℚ)) ≤ q := Int.floor_le q
  have hf1 : q < (⌊q⌋ : ℚ) + 1 := Int.lt_floor_add_one q
  have hcase : (m : ℚ) ≤ (⌊q⌋ : ℚ) ∨ ((⌊q⌋ : ℚ) + 1) ≤ (m : ℚ) := by
    rcases le_or_lt m ⌊q⌋ with h | h
    · left; exact_mod_cast h
    · right; exact_mod_cast h
  have hmle : (m : ℚ) ≤ (⌊q⌋ : ℚ) → q - (m : ℚ) ≤ |(m : ℚ) - q| := by
    intro h
    rw [abs_sub_comm, abs_of_nonneg (by linarith)]
  have hmge : ((⌊q⌋ : ℚ) + 1) ≤ (m : ℚ) → (m : ℚ) - q ≤ |(m : ℚ) - q| := by
    intro h
    rw [abs_of_nonneg (by linarith)]
  unfold rhe
  split_ifs with h1 h2 h3
  · rw [abs_sub_comm, abs_of_nonneg (by linarith)]
    rcases hcase with hm | hm
    · have := hmle hm; linarith
    · have := hmge hm
      linarith
  · push_cast
    rw [abs_of_nonneg (by linarith)]
    rcases hcase with hm | hm
    · have := hmle hm; linarith
    · have := hmge hm; linarith
  · have hr : q - (⌊q⌋ : ℚ) = 1/2 := by linarith
    rw [abs_sub_comm, abs_of_nonneg (by linarith)]
    rcases hcase with hm | hm
    · have := hmle hm; linarith
    · have := hmge hm; linarith
  · have hr : q - (⌊q⌋ : ℚ) = 1/2 := by linarith
    push_cast
    rw [abs_of_nonneg (by linarith)]
    rcases hcase with hm | hm
    · have := hmle hm; linarith
    · have := hmge hm; linarith

/-- Round-half-to-even of a non-negative rational is non-negative. -/
theorem rhe_nonneg (q : ℚ) (h : 0 ≤ q) : 0 ≤ rhe q := by
  have hf : 0 ≤ ⌊q⌋ := Int.le_floor.mpr (by exact_mod_cast h)
  rcases rhe_eq_floor_or_succ q with h1 | h1 <;> omega

/-- Round-half-to-even respects an integer upper bound. -/
theorem rhe_le (q : ℚ) (N : ℤ) (h : q ≤ (N : ℚ)) : rhe q ≤ N := by
  have hfl : ⌊q⌋ ≤ N := Int.floor_le_floor h |>.trans_eq (Int.floor_intCast N)
  unfold rhe
  split_ifs with h1 h2 h3
  · exact hfl
  · have hfq : (⌊q⌋ : ℚ) < q := by linarith
    have : ⌊q⌋ < N := by
      by_contra hc
      push_neg at hc
      have : (N : ℚ) ≤ (⌊q⌋ : ℚ) := by exact_mod_cast hc
      linarith
    omega
  · exact hfl
  · have hfq : (⌊q⌋ : ℚ) < q := by linarith
    have : ⌊q⌋ < N := by
      by_contra hc
      push_neg at hc
      have : (N : ℚ) ≤ (⌊q⌋ : ℚ) := by exact_mod_cast hc
      linarith
    omega

/-- pyRound keeps a value of the unit interval inside the unit interval. -/
theorem pyRound_unit (q : ℚ) (nd : ℕ) (h0 : 0 ≤ q) (h1 : q ≤ 1) :
    0 ≤ pyRound q nd ∧ pyRound q nd ≤ 1 := by
  have hp : (0 : ℚ) < (10 : ℚ) ^ nd := by positivity
  have hlo : 0 ≤ rhe (q * (10 : ℚ) ^ nd) :=
    rhe_nonneg _ (by positivity)
  have hhi : rhe (q * (10 : ℚ) ^ nd) ≤ (10 : ℤ) ^ nd := by
    apply rhe_le
    push_cast
    nlinarith
  constructor
  · unfold pyRound
    positivity
  · unfold pyRound
    rw [div_le_one hp]
    calc ((rhe (q * (10 : ℚ) ^ nd) : ℤ) : ℚ) ≤ (((10 : ℤ) ^ nd : ℤ) : ℚ) := by
          exact_mod_cast hhi
    _ = (10 : ℚ) ^ nd := by push_cast; ring

/- ----------------------------------------------------------------
C2: totality of the RiskManager operations on malformed inputs
---------------------------------------------------------------- -/

/-- C2 counterexample: the claim says every RiskManager operation returns a
conservative safe value on a candle missing a field, yet calculate_atr on a
single candle whose high key is absent raises a KeyError instead of
returning any value. -/
theorem C2_counterexample :
    calculate_atr [{ high := none, low := some 1, close := some 1 }] 14 =
      Except.error "KeyError" := by
  decide

/-- C2 amended: calculate_quantity returns 0 on zero capital,
compute_trailing_sl leaves the stop unchanged on a zero entry price, and
check_daily_loss_limit never raises and with zero capital has limit 0 and
allows exactly when the summed P&L is positive; but calculate_atr, and
compute_sl_target_from_atr through it, raise a KeyError whenever an
accessed candle field is missing, instead of degrading to a safe value. -/
theorem C2_malformed_input_behavior :
    (∀ entry_price stoploss_price : ℚ,
      calculate_quantity 0 entry_price stoploss_price = 0) ∧
    (∀ (current_price : ℚ) (direction : String) (current_sl : ℚ),
      compute_trailing_sl 0 current_price direction current_sl = current_sl) ∧
    (∀ (trades : List StoredTrade) (now : ℤ),
      (check_daily_loss_limit trades now 0).2.2 = 0 ∧
      ((check_daily_loss_limit trades now 0).1 = true ↔
        0 < (check_daily_loss_limit trades now 0).2.1)) ∧
    (∀ (entry_price : ℚ) (direction : String),
      compute_sl_target_from_atr
        [{ high := none, low := some 1, close := some 1 }] entry_price
        direction = Except.error "KeyError") := by
  refine ⟨?_, ?_, ?_, ?_⟩
  · intro entry_price stoploss_price
    unfold calculate_quantity
    simp only [zero_mul, max_risk_pct]
    split_ifs with h1 h2
    · rfl
    · rfl
    · exfalso
      rw [zero_div] at h2
      simp at h2
  · intro current_price direction current_sl
    unfold compute_trailing_sl trailing_move_pct
    simp
  · intro trades now
    unfold check_daily_loss_limit
    simp only [zero_mul, abs_zero, neg_zero]
    constructor
    · split_ifs <;> rfl
    · split_ifs with h
      · simp only [false_iff, not_lt]
        exact h
      · simp only [true_iff]
        linarith [not_le.mp h]
  · intro entry_price direction
    unfold compute_sl_target_from_atr
    have h : calculate_atr [{ high := none, low := some 1, close := some 1 }]
        14 = Except.error "KeyError" := by decide
    rw [h]
    rfl

/- ----------------------------------------------------------------
C3: strict positivity of calculate_atr
---------------------------------------------------------------- -/

/-- C3 failing input: on the single flat candle with high = low = close = 5
the fallback branch of calculate_atr returns (5 - 5) / 2 = 0, although the
claim and the guard in the full-data branch require a strictly positive
result. -/
theorem C3_flat_candle_atr_zero :
    calculate_atr [{ high := some 5, low := some 5, close := some 5 }] 14 =
      Except.ok 0 := by
  simp [calculate_atr, maxList, minList, pyKey, List.mapM, List.mapM.loop,
    bind, Except.bind, pure, Except.pure]

/- ----------------------------------------------------------------
C5: terminal trades are never touched by a TradeWatcher cycle
---------------------------------------------------------------- -/

/-- C5: a trade whose status is the terminal STOPLOSS or TARGET is skipped
before any evaluation: the per-trade step returns it unchanged for every
live price and clock, and a cycle over a list of terminal trades returns
the list unchanged. -/
theorem C5_terminal_status_immutable :
    (∀ (t : WTrade) (ltp : Option ℚ) (now : ℤ),
      t.status = "STOPLOSS" ∨ t.status = "TARGET" →
      watch_trade t ltp now = t) ∧
    (∀ (trades : List WTrade) (feed : String → Option ℚ) (now : ℤ),
      (∀ t ∈ trades, t.status = "STOPLOSS" ∨ t.status = "TARGET") →
      check_active_trades trades feed now = trades) := by
  have hstep : ∀ (t : WTrade) (ltp : Option ℚ) (now : ℤ),
      t.status = "STOPLOSS" ∨ t.status = "TARGET" →
      watch_trade t ltp now = t := by
    intro t ltp now h
    unfold watch_trade
    rcases h with h | h <;> rw [h] <;> simp
  refine ⟨hstep, ?_⟩
  intro trades feed now hall
  unfold check_active_trades
  induction trades with
  | nil => rfl
  | cons t rest ih =>
    simp only [List.map_cons, List.cons.injEq]
    constructor
    · exact hstep t (feed t.symbol) now (hall t (by simp))
    · exact ih (fun u hu => hall u (by simp [hu]))

/-- C5 witness: the per-trade step at a concrete STOPLOSS trade and a
concrete live price leaves the trade unchanged. -/
theorem C5_witness :
    watch_trade
      { status := "STOPLOSS", symbol := "X", type := "BUY", entry_price := 100
        stoploss := 95, target := 110, quantity := 1, trade_id := none
        exit_price := none, exit_time := none, pnl := none } (some 90) 5 =
      { status := "STOPLOSS", symbol := "X", type := "BUY", entry_price := 100
        stoploss := 95, target := 110, quantity := 1, trade_id := none
        exit_price := none, exit_time := none, pnl := none } :=
  C5_terminal_status_immutable.1 _ (some 90) 5 (Or.inl rfl)

/- ----------------------------------------------------------------
C10: pause_system is idempotent on the already-paused state
---------------------------------------------------------------- -/

/-- C10: when the system mode already reads paused, pause_system returns
False, changes nothing and emits no alert; when it does not read paused,
the call returns True, writes the paused mode together with the pause
record, and emits exactly one alert. -/
theorem C10_pause_system_idempotent (st : SystemState) (reason : String)
    (uid : Option String) (pnl limit : Option ℚ) (now : ℤ) :
    (get_system_mode st = "paused" →
      pause_system st reason uid pnl limit now = (false, st, [])) ∧
    (get_system_mode st ≠ "paused" →
      pause_system st reason uid pnl limit now =
        (true,
         { st with mode := some "paused"
                   paused_info := some ⟨reason, now, uid, pnl, limit⟩ },
         ["AURA-GUARD: System Paused"])) := by
  constructor
  · intro h
    unfold pause_system
    rw [if_pos h]
  · intro h
    unfold pause_system
    rw [if_neg h]

/-- C10 witness: at a concrete already-paused state the call returns False
with the state unchanged and no alert. -/
theorem C10_witness :
    pause_system ⟨some "paused", none, false⟩ "HARD_STOP" none none none 7 =
      (false, ⟨some "paused", none, false⟩, []) :=
  (C10_pause_system_idempotent ⟨some "paused", none, false⟩ "HARD_STOP"
    none none none 7).1 (by decide)

/- ----------------------------------------------------------------
C1: guard auto-resume behaviour while paused
---------------------------------------------------------------- -/

/-- C1 counterexample: with auto_resume_sec = 0 and the force-resume flag
set, a paused guard cycle keeps the system paused with the pause record in
place and evaluates no account, although the claim requires a resume
whenever the flag is set, for every configuration including
auto_resume_sec = 0. -/
theorem C1_counterexample :
    (guard_cycle ⟨3/100, 5/100, 1, 0, 100000⟩
        ⟨some "paused", some ⟨"SOFT_STOP", 100, none, none, none⟩, true⟩
        [] 1000000).1 =
      ⟨some "paused", some ⟨"SOFT_STOP", 100, none, none, none⟩, true⟩ ∧
    (guard_cycle ⟨3/100, 5/100, 1, 0, 100000⟩
        ⟨some "paused", some ⟨"SOFT_STOP", 100, none, none, none⟩, true⟩
        [] 1000000).2.1 = [] := by
  constructor
  · decide
  · decide

/-- Equation lemma: a non-positive auto_resume_sec disables the resume
attempt entirely. -/
theorem tar_disabled (cfg : GuardCfg) (st : SystemState) (now : ℤ)
    (h : cfg.auto_resume_sec ≤ 0) :
    try_auto_resume_if_allowed cfg st now = (false, st, []) := by
  unfold try_auto_resume_if_allowed
  rw [if_pos h]

/-- Equation lemma: without a pause record nothing resumes. -/
theorem tar_no_record (cfg : GuardCfg) (st : SystemState) (now : ℤ)
    (h1 : ¬ cfg.auto_resume_sec ≤ 0) (h : st.paused_info = none) :
    try_auto_resume_if_allowed cfg st now = (false, st, []) := by
  unfold try_auto_resume_if_allowed
  rw [if_neg h1, h]

/-- Equation lemma: a falsy pause timestamp blocks the resume attempt. -/
theorem tar_zero_at (cfg : GuardCfg) (st : SystemState) (now : ℤ)
    (p : PausedInfo) (h1 : ¬ cfg.auto_resume_sec ≤ 0)
    (h : st.paused_info = some p) (h2 : p.at_time = 0) :
    try_auto_resume_if_allowed cfg st now = (false, st, []) := by
  unfold try_auto_resume_if_allowed
  rw [if_neg h1, h]
  dsimp only
  rw [if_pos h2]

/-- Equation lemma: an elapsed cooldown resumes and clears the record. -/
theorem tar_elapsed (cfg : GuardCfg) (st : SystemState) (now : ℤ)
    (p : PausedInfo) (h1 : ¬ cfg.auto_resume_sec ≤ 0)
    (h : st.paused_info = some p) (h2 : ¬ p.at_time = 0)
    (h3 : cfg.auto_resume_sec ≤ now - p.at_time) :
    try_auto_resume_if_allowed cfg st now =
      (true, { st with mode := some "live", paused_info := none },
       ["AURA-GUARD: Auto-resume"]) := by
  unfold try_auto_resume_if_allowed
  rw [if_neg h1, h]
  dsimp only
  rw [if_neg h2, if_pos h3]

/-- Equation lemma: the force flag resumes, clears itself and clears the
record. -/
theorem tar_forced (cfg : GuardCfg) (st : SystemState) (now : ℤ)
    (p : PausedInfo) (h1 : ¬ cfg.auto_resume_sec ≤ 0)
    (h : st.paused_info = some p) (h2 : ¬ p.at_time = 0)
    (h3 : ¬ cfg.auto_resume_sec ≤ now - p.at_time)
    (h4 : st.force_resume = true) :
    try_auto_resume_if_allowed cfg st now =
      (true, { st with mode := some "live", paused_info := none
                       force_resume := false },
       ["AURA-GUARD: Admin resume"]) := by
  unfold try_auto_resume_if_allowed
  rw [if_neg h1, h]
  dsimp only
  rw [if_neg h2, if_neg h3, if_pos h4]

/-- Equation lemma: no elapsed cooldown and no force flag keeps the pause. -/
theorem tar_stay (cfg : GuardCfg) (st : SystemState) (now : ℤ)
    (p : PausedInfo) (h1 : ¬ cfg.auto_resume_sec ≤ 0)
    (h : st.paused_info = some p) (h2 : ¬ p.at_time = 0)
    (h3 : ¬ cfg.auto_resume_sec ≤ now - p.at_time)
    (h4 : ¬ st.force_resume = true) :
    try_auto_resume_if_allowed cfg st now = (false, st, []) := by
  unfold try_auto_resume_if_allowed
  rw [if_neg h1, h]
  dsimp only
  rw [if_neg h2, if_neg h3, if_neg h4]

/-- C1 amended: while the mode reads paused a guard cycle evaluates no
account, and it resumes, setting the mode to live and clearing the pause
record, exactly when auto_resume_sec is positive, the pause record carries
a non-zero timestamp, and either the auto-resume duration has elapsed or
the force-resume flag is set; in every other case the cycle leaves the
state unchanged, so with auto_resume_sec = 0 the system never resumes even
under the force-resume flag. -/
theorem C1_guard_pause_resume (cfg : GuardCfg) (st : SystemState)
    (users : List (String × GuardUser)) (now : ℤ)
    (hp : get_system_mode st = "paused") :
    (guard_cycle cfg st users now).2.1 = [] ∧
    (get_system_mode (guard_cycle cfg st users now).1 = "live" ↔
      (0 < cfg.auto_resume_sec ∧ ∃ p, st.paused_info = some p ∧
        p.at_time ≠ 0 ∧
        (cfg.auto_resume_sec ≤ now - p.at_time ∨ st.force_resume = true))) ∧
    (get_system_mode (guard_cycle cfg st users now).1 ≠ "live" →
      (guard_cycle cfg st users now).1 = st) ∧
    (get_system_mode (guard_cycle cfg st users now).1 = "live" →
      (guard_cycle cfg st users now).1.paused_info = none) := by
  have hcycle : ∀ r : Bool × SystemState × List String,
      try_auto_resume_if_allowed cfg st now = r →
      guard_cycle cfg st users now = (r.2.1, [], r.2.2) := by
    intro r hr
    unfold guard_cycle
    rw [if_pos hp, hr]
  have hstay : guard_cycle cfg st users now = (st, [], []) →
      ¬ (0 < cfg.auto_resume_sec ∧ ∃ p, st.paused_info = some p ∧
        p.at_time ≠ 0 ∧
        (cfg.auto_resume_sec ≤ now - p.at_time ∨ st.force_resume = true)) →
      (guard_cycle cfg st users now).2.1 = [] ∧
      (get_system_mode (guard_cycle cfg st users now).1 = "live" ↔
        (0 < cfg.auto_resume_sec ∧ ∃ p, st.paused_info = some p ∧
          p.at_time ≠ 0 ∧
          (cfg.auto_resume_sec ≤ now - p.at_time ∨
            st.force_resume = true))) ∧
      (get_system_mode (guard_cycle cfg st users now).1 ≠ "live" →
        (guard_cycle cfg st users now).1 = st) ∧
      (get_system_mode (guard_cycle cfg st users now).1 = "live" →
        (guard_cycle cfg st users now).1.paused_info = none) := by
    intro heq hnot
    refine ⟨by rw [heq], ?_, ?_, ?_⟩
    · rw [heq]
      constructor
      · intro hlive
        have h2 : get_system_mode st = "live" := hlive
        rw [hp] at h2
        exact absurd h2 (by decide)
      · intro hc
        exact absurd hc hnot
    · intro _
      rw [heq]
    · intro hlive
      rw [heq] at hlive
      have h2 : get_system_mode st = "live" := hlive
      rw [hp] at h2
      exact absurd h2 (by decide)
  have hres : ∀ (st2 : SystemState) (alert : String),
      st2.mode = some "live" → st2.paused_info = none →
      guard_cycle cfg st users now = (st2, [], [alert]) →
      (0 < cfg.auto_resume_sec ∧ ∃ p, st.paused_info = some p ∧
        p.at_time ≠ 0 ∧
        (cfg.auto_resume_sec ≤ now - p.at_time ∨ st.force_resume = true)) →
      (guard_cycle cfg st users now).2.1 = [] ∧
      (get_system_mode (guard_cycle cfg st users now).1 = "live" ↔
        (0 < cfg.auto_resume_sec ∧ ∃ p, st.paused_info = some p ∧
          p.at_time ≠ 0 ∧
          (cfg.auto_resume_sec ≤ now - p.at_time ∨
            st.force_resume = true))) ∧
      (get_system_mode (guard_cycle cfg st users now).1 ≠ "live" →
        (guard_cycle cfg st users now).1 = st) ∧
      (get_system_mode (guard_cycle cfg st users now).1 = "live" →
        (guard_cycle cfg st users now).1.paused_info = none) := by
    intro st2 alert hm hpi2 heq hcond
    have hlive2 : get_system_mode st2 = "live" := by
      simp [get_system_mode, hm]
    refine ⟨by rw [heq], ?_, ?_, ?_⟩
    · rw [heq]
      exact ⟨fun _ => hcond, fun _ => hlive2⟩
    · intro hne
      rw [heq] at hne
      exact absurd hlive2 hne
    · intro _
      rw [heq]
      exact hpi2
  by_cases h1 : cfg.auto_resume_sec ≤ 0
  · refine hstay (by rw [hcycle _ (tar_disabled cfg st now h1)]) ?_
    rintro ⟨hpos, -⟩
    omega
  · by_cases hn : st.paused_info = none
    · refine hstay (by rw [hcycle _ (tar_no_record cfg st now h1 hn)]) ?_
      rintro ⟨-, q, hq, -⟩
      rw [hn] at hq
      exact absurd hq (by simp)
    · obtain ⟨p, hpi⟩ := Option.ne_none_iff_exists'.mp hn
      by_cases h2 : p.at_time = 0
      · refine hstay
          (by rw [hcycle _ (tar_zero_at cfg st now p h1 hpi h2)]) ?_
        rintro ⟨-, q, hq, hqat, -⟩
        rw [hpi] at hq
        injection hq with hq
        rw [← hq] at hqat
        exact hqat h2
      · by_cases h3 : cfg.auto_resume_sec ≤ now - p.at_time
        · exact hres _ _ rfl rfl
            (by rw [hcycle _ (tar_elapsed cfg st now p h1 hpi h2 h3)])
            ⟨by omega, p, hpi, h2, Or.inl h3⟩
        · by_cases h4 : st.force_resume = true
          · exact hres _ _ rfl rfl
              (by rw [hcycle _ (tar_forced cfg st now p h1 hpi h2 h3 h4)])
              ⟨by omega, p, hpi, h2, Or.inr h4⟩
          · refine hstay
              (by rw [hcycle _ (tar_stay cfg st now p h1 hpi h2 h3 h4)]) ?_
            rintro ⟨-, q, hq, -, helapsed | hforce⟩
            · rw [hpi] at hq
              injection hq with hq
              rw [← hq] at helapsed
              exact h3 helapsed
            · exact h4 hforce

/-- C1 witness: with a one-minute auto-resume window, a pause recorded at
time 100 and the clock at 200, a paused cycle resumes to live, evaluates
no account and clears the pause record. -/
theorem C1_witness :
    get_system_mode
      (guard_cycle ⟨3/100, 5/100, 1, 60, 100000⟩
        ⟨some "paused", some ⟨"HARD_STOP", 100, none, none, none⟩, false⟩
        [] 200).1 = "live" ∧
    (guard_cycle ⟨3/100, 5/100, 1, 60, 100000⟩
        ⟨some "paused", some ⟨"HARD_STOP", 100, none, none, none⟩, false⟩
        [] 200).2.1 = [] := by
  have h := C1_guard_pause_resume ⟨3/100, 5/100, 1, 60, 100000⟩
    ⟨some "paused", some ⟨"HARD_STOP", 100, none, none, none⟩, false⟩
    [] 200 (by decide)
  exact ⟨h.2.1.mpr ⟨by decide, ⟨"HARD_STOP", 100, none, none, none⟩, rfl,
    by decide, Or.inl (by decide)⟩, h.1⟩

/- ----------------------------------------------------------------
C6: the trailing stop never loosens
---------------------------------------------------------------- -/

/-- Equation lemma: below one full trailing step the stop is unchanged. -/
theorem cts_eq_of_lt (e c : ℚ) (d : String) (sl : ℚ)
    (h : trailing_move_pct e c d < trailing_step_pct) :
    compute_trailing_sl e c d sl = sl := by
  have hsteps : (if trailing_move_pct e c d > 0 then
      ⌊trailing_move_pct e c d / trailing_step_pct⌋ else 0) ≤ 0 := by
    split_ifs with hm
    · have hlt : trailing_move_pct e c d / trailing_step_pct < 1 := by
        rw [trailing_step_pct] at h ⊢
        rw [div_lt_one (by norm_num)]
        linarith
      have h2 : ⌊trailing_move_pct e c d / trailing_step_pct⌋ < (1 : ℤ) :=
        Int.floor_lt.mpr (by push_cast; exact hlt)
      omega
    · exact le_refl 0
  simp only [compute_trailing_sl]
  rw [if_pos hsteps]

/-- Equation lemma: at or beyond one full trailing step a BUY stop locks to
the larger of the current stop and the rounded entry price. -/
theorem cts_eq_of_ge_buy (e c sl : ℚ)
    (h : trailing_step_pct ≤ trailing_move_pct e c "BUY") :
    compute_trailing_sl e c "BUY" sl = max sl (pyRound e 2) := by
  have hpos : trailing_move_pct e c "BUY" > 0 := by
    rw [trailing_step_pct] at h
    linarith
  have hone : (1 : ℤ) ≤ ⌊trailing_move_pct e c "BUY" / trailing_step_pct⌋ := by
    apply Int.le_floor.mpr
    rw [trailing_step_pct]
    rw [le_div_iff₀ (by norm_num)]
    push_cast
    rw [trailing_step_pct] at h
    linarith
  have hsteps : ¬ ((if trailing_move_pct e c "BUY" > 0 then
      ⌊trailing_move_pct e c "BUY" / trailing_step_pct⌋ else 0) ≤ 0) := by
    rw [if_pos hpos]
    omega
  simp only [compute_trailing_sl, if_true, if_false]
  rw [if_neg hsteps, if_pos (by rw [if_pos hpos]; exact hone)]

/-- Equation lemma: at or beyond one full trailing step a SELL stop locks
to the smaller of the current stop and the rounded entry price. -/
theorem cts_eq_of_ge_sell (e c sl : ℚ)
    (h : trailing_step_pct ≤ trailing_move_pct e c "SELL") :
    compute_trailing_sl e c "SELL" sl = min sl (pyRound e 2) := by
  have hpos : trailing_move_pct e c "SELL" > 0 := by
    rw [trailing_step_pct] at h
    linarith
  have hone : (1 : ℤ) ≤
      ⌊trailing_move_pct e c "SELL" / trailing_step_pct⌋ := by
    apply Int.le_floor.mpr
    rw [trailing_step_pct]
    rw [le_div_iff₀ (by norm_num)]
    push_cast
    rw [trailing_step_pct] at h
    linarith
  have hsteps : ¬ ((if trailing_move_pct e c "SELL" > 0 then
      ⌊trailing_move_pct e c "SELL" / trailing_step_pct⌋ else 0) ≤ 0) := by
    rw [if_pos hpos]
    omega
  simp only [compute_trailing_sl, if_true, if_false]
  rw [if_neg hsteps, if_neg (by decide : ¬ ("SELL" = "BUY")),
    if_pos (by rw [if_pos hpos]; exact hone)]

/-- C6 counterexample: at entry price 100.006, current price 102 and
current stop 100, the BUY trailing stop comes out as 100.01, the entry
price rounded to two decimals, and not as max(current_sl, entry_price) =
100.006 as the claim states. -/
theorem C6_counterexample :
    compute_trailing_sl (100006/1000) 102 "BUY" 100 = 10001/100 ∧
    max (100 : ℚ) (100006/1000) ≠ 10001/100 := by
  constructor
  · simp [compute_trailing_sl, trailing_move_pct, trailing_step_pct]
    norm_num [pyRound, rhe]
  · rw [max_eq_right (by norm_num)]
    norm_num

/-- C6 amended: the trailing stop never loosens: a BUY call returns at
least the current stop and a SELL call at most the current stop, so
successive BUY calls fed the previous stop are monotone; below one full
trailing step of favorable movement the stop is returned unchanged, and at
or beyond one full step a BUY call returns the larger of the current stop
and the entry price rounded to two decimals. -/
theorem C6_trailing_never_loosens (e c sl : ℚ) :
    sl ≤ compute_trailing_sl e c "BUY" sl ∧
    compute_trailing_sl e c "SELL" sl ≤ sl ∧
    (trailing_move_pct e c "BUY" < trailing_step_pct →
      compute_trailing_sl e c "BUY" sl = sl) ∧
    (trailing_move_pct e c "SELL" < trailing_step_pct →
      compute_trailing_sl e c "SELL" sl = sl) ∧
    (trailing_step_pct ≤ trailing_move_pct e c "BUY" →
      compute_trailing_sl e c "BUY" sl = max sl (pyRound e 2)) ∧
    (∀ c2 : ℚ,
      sl ≤ compute_trailing_sl e c2 "BUY" (compute_trailing_sl e c "BUY" sl)) := by
  have hbuy : ∀ c' sl', sl' ≤ compute_trailing_sl e c' "BUY" sl' := by
    intro c' sl'
    rcases lt_or_le (trailing_move_pct e c' "BUY") trailing_step_pct with h | h
    · rw [cts_eq_of_lt e c' "BUY" sl' h]
    · rw [cts_eq_of_ge_buy e c' sl' h]
      exact le_max_left _ _
  have hsell : ∀ sl', compute_trailing_sl e c "SELL" sl' ≤ sl' := by
    intro sl'
    rcases lt_or_le (trailing_move_pct e c "SELL") trailing_step_pct with h | h
    · rw [cts_eq_of_lt e c "SELL" sl' h]
    · rw [cts_eq_of_ge_sell e c sl' h]
      exact min_le_left _ _
  refine ⟨hbuy c sl, hsell sl, cts_eq_of_lt e c "BUY" sl,
    cts_eq_of_lt e c "SELL" sl, cts_eq_of_ge_buy e c sl, ?_⟩
  intro c2
  exact le_trans (hbuy c sl) (hbuy c2 _)

/-- C6 witness: at entry 100, current price 102 and stop 90 the BUY stop
locks to max(90, 100) and never drops below 90; with no favorable move the
stop is returned unchanged. -/
theorem C6_witness :
    compute_trailing_sl 100 102 "BUY" 90 = max 90 (pyRound 100 2) ∧
    compute_trailing_sl 100 100 "BUY" 90 = 90 ∧
    (90 : ℚ) ≤ compute_trailing_sl 100 102 "BUY" 90 := by
  have h := C6_trailing_never_loosens (100 : ℚ) 102 90
  have h0 := C6_trailing_never_loosens (100 : ℚ) 100 90
  refine ⟨h.2.2.2.2.1 ?_, h0.2.2.1 ?_, h.1⟩
  · simp [trailing_move_pct, trailing_step_pct]
    norm_num
  · simp [trailing_move_pct, trailing_step_pct]

/- ----------------------------------------------------------------
C7, C8, C4: verify_signal properties
---------------------------------------------------------------- -/

/-- Equation lemma: when both pre-gates pass, the breakdown is the ordered
list of the six factor subscores. -/
theorem verify_signal_breakdown (sig : Signal) (snap : Snapshot)
    (curMin : ℕ) (hw : now_in_time_window curMin = true)
    (hside : pyUpper sig.side = "BUY") :
    (verify_signal sig snap curMin).breakdown =
      [("market_direction", mdScore sig snap),
       ("oi_build", oiScore sig snap),
       ("volume_momentum", volScore snap),
       ("greeks", greeksScore snap),
       ("iv_sanity", (ivScorePair snap).1),
       ("confidence", confScore sig)] := by
  unfold verify_signal
  rw [if_neg (not_not_intro hw), if_neg (not_not_intro hside)]

/-- C7: a signal whose side does not read BUY is skipped with score zero
and an empty breakdown, at every minute of the day and for every
snapshot; outside the trading window the same record is returned, so the
property holds unconditionally on time. -/
theorem C7_non_buy_always_skipped (sig : Signal) (snap : Snapshot)
    (curMin : ℕ) (h : pyUpper sig.side ≠ "BUY") :
    (verify_signal sig snap curMin).action = "SKIP" ∧
    (verify_signal sig snap curMin).score = 0 ∧
    (verify_signal sig snap curMin).breakdown = [] := by
  unfold verify_signal
  split_ifs with h1 <;> exact ⟨rfl, rfl, rfl⟩

/-- C7 witness: a concrete SELL signal on an empty snapshot inside the
trading window yields SKIP, score zero and an empty breakdown. -/
theorem C7_witness :
    (verify_signal ⟨"NIFTY24NOV22500CE", "SELL", "CE", 95, some (9/10)⟩
      emptySnapshot 600).action = "SKIP" ∧
    (verify_signal ⟨"NIFTY24NOV22500CE", "SELL", "CE", 95, some (9/10)⟩
      emptySnapshot 600).score = 0 ∧
    (verify_signal ⟨"NIFTY24NOV22500CE", "SELL", "CE", 95, some (9/10)⟩
      emptySnapshot 600).breakdown = [] :=
  C7_non_buy_always_skipped _ emptySnapshot 600 (by decide)

/-- C8: the six verifier weights sum to exactly one, and for every signal,
snapshot and minute of the day the returned score lies in the closed unit
interval. -/
theorem C8_weights_and_score_range :
    (WEIGHTS.map Prod.snd).sum = 1 ∧
    ∀ (sig : Signal) (snap : Snapshot) (curMin : ℕ),
      0 ≤ (verify_signal sig snap curMin).score ∧
      (verify_signal sig snap curMin).score ≤ 1 := by
  constructor
  · simp [WEIGHTS]
    norm_num
  · intro sig snap curMin
    unfold verify_signal
    split_ifs with h1 h2
    all_goals
      first
        | exact ⟨le_refl 0, by norm_num⟩
        | (dsimp only
           exact ⟨(pyRound_unit _ 4 (le_max_left _ _)
               (max_le (by norm_num) (min_le_left _ _))).1,
             (pyRound_unit _ 4 (le_max_left _ _)
               (max_le (by norm_num) (min_le_left _ _))).2⟩)

/-- C4 counterexample: for a BUY signal with confidence 100 and ai_score 2
inside the trading window, the confidence subscore in the breakdown is
0.6, because an ai_score outside the unit interval is zeroed, while the
formula of the claim clamps ai_score to 1 and yields 1. -/
theorem C4_counterexample :
    (verify_signal ⟨"NIFTYX", "BUY", "CE", 100, some 2⟩ emptySnapshot
      600).breakdown.lookup "confidence" = some (6/10) ∧
    specConfidenceFormula 100 2 = 1 ∧ ((6/10 : ℚ) ≠ 1) := by
  refine ⟨?_, by norm_num [specConfidenceFormula], by norm_num⟩
  rw [verify_signal_breakdown _ emptySnapshot 600 (by decide) (by decide)]
  simp [List.lookup]
  norm_num [confScore]

/-- C4 amended: for every BUY signal passing the pre-gates the confidence
subscore equals 0.6 times min(100, confidence)/100 plus 0.4 times the
ai score taken as is when it lies in the unit interval and as 0
otherwise; so an ai_score above 1 contributes 0, not the clamped 0.4, and
a negative confidence still enters the first term through the same
formula. -/
theorem C4_confidence_subscore (sig : Signal) (snap : Snapshot)
    (curMin : ℕ) (h1 : SV_TIME_START_MIN ≤ curMin)
    (h2 : curMin ≤ SV_TIME_END_MIN) (h3 : pyUpper sig.side = "BUY") :
    (verify_signal sig snap curMin).breakdown.lookup "confidence" =
      some ((6/10) * (min 100 sig.confidence / 100) +
        (4/10) * (if 0 ≤ sig.ai_score.getD 0 ∧ sig.ai_score.getD 0 ≤ 1
                  then sig.ai_score.getD 0 else 0)) := by
  rw [verify_signal_breakdown sig snap curMin
    (decide_eq_true_eq.mpr ⟨h1, h2⟩) h3]
  simp [List.lookup]
  unfold confScore
  dsimp only
  split_ifs <;> ring

/-- C4 witness: a concrete in-window BUY signal with confidence 50 and no
ai score has confidence subscore 0.3 by the amended formula. -/
theorem C4_witness :
    (verify_signal ⟨"S", "BUY", "", 50, none⟩ emptySnapshot
      600).breakdown.lookup "confidence" =
      some ((6/10) * (min 100 (50 : ℚ) / 100) +
        (4/10) * (if 0 ≤ (none : Option ℚ).getD 0 ∧
                    (none : Option ℚ).getD 0 ≤ 1
                  then (none : Option ℚ).getD 0 else 0)) :=
  C4_confidence_subscore ⟨"S", "BUY", "", 50, none⟩ emptySnapshot 600
    (by norm_num [SV_TIME_START_MIN]) (by norm_num [SV_TIME_END_MIN])
    (by decide)

/- ----------------------------------------------------------------
C9: strike rounding and option symbol construction
---------------------------------------------------------------- -/

/-- C9: for a positive strike step, round_strike returns a multiple of the
step at minimal distance from the index price; concretely 22537 at step 50
rounds to 22550, the next weekly expiry of NIFTY from Monday 2026-10-12 is
Thursday 2026-10-15, and the constructed call symbol is the concatenation
NIFTY 26 OCT 15 22550 CE. -/
theorem C9_round_strike_and_symbol :
    (∀ (price : ℚ) (step m : ℤ), 0 < step →
      (step ∣ round_strike price step) ∧
      |(round_strike price step : ℚ) - price| ≤
        |(m : ℚ) * (step : ℚ) - price|) ∧
    round_strike 22537 50 = 22550 ∧
    get_next_weekly_expiry "NIFTY" ⟨2026, 10, 12⟩ = ⟨2026, 10, 15⟩ ∧
    pyWeekday ⟨2026, 10, 15⟩ = 3 ∧
    build_option_symbol "NIFTY" ⟨2026, 10, 15⟩ 22550 "CE" =
      "NIFTY26OCT1522550CE" := by
  refine ⟨?_, by norm_num [round_strike, rhe], by decide, by decide,
    by decide⟩
  intro price step m hs
  have hsq : (0 : ℚ) < (step : ℚ) := by exact_mod_cast hs
  unfold round_strike
  rw [if_neg (by omega : ¬ step ≤ 0)]
  constructor
  · exact dvd_mul_left step (rhe (price / (step : ℚ)))
  · have hx : (price / (step : ℚ)) * (step : ℚ) = price :=
      div_mul_cancel₀ price (ne_of_gt hsq)
    have e1 : ((rhe (price / (step : ℚ)) * step : ℤ) : ℚ) - price =
        ((rhe (price / (step : ℚ)) : ℚ) - price / (step : ℚ)) *
          (step : ℚ) := by
      push_cast
      rw [sub_mul, hx]
    have e2 : (m : ℚ) * (step : ℚ) - price =
        ((m : ℚ) - price / (step : ℚ)) * (step : ℚ) := by
      rw [sub_mul, hx]
    rw [e1, e2, abs_mul, abs_mul]
    exact mul_le_mul_of_nonneg_right (rhe_nearest _ m) (abs_nonneg _)

/-- C9 witness: the rounded strike for price 22537 and step 50 is a
multiple of 50 no farther from the price than the multiple 450 times
50. -/
theorem C9_witness :
    ((50 : ℤ) ∣ round_strike 22537 50) ∧
    |(round_strike 22537 50 : ℚ) - 22537| ≤ |(450 : ℚ) * 50 - 22537| :=
  C9_round_strike_and_symbol.1 22537 50 450 (by norm_num)

end AuraX
